import Mathlib

/-!
Verification of the transaction listing API of djaodjin-saas
(`saas/api/transactions.py`): balance and total aggregation over a
double-entry ledger, account-selector filtering, pagination envelopes,
the transfer reconciliation flag, processor-error translation, and the
balance cancellation endpoint.

Querysets are embedded as lists of transactions; Django ORM filters
become `List.filter`; the functions imported from `saas.models`
(`sum_dest_amount`, `sum_orig_amount`, `get_transfers`, ...) are not part
of the file under verification and are modelled from the specification
or abstracted as parameters, as noted on each definition.
-/

namespace Saas

/-- A ledger `Transaction` record (immutable double-entry movement), with
the fields used by `saas/api/transactions.py`.  `reconciled` is the
settled/cleared state consulted by the reconciliation policy (spec 4.4). -/
structure Transaction where
  created_at : Nat
  descr : String
  orig_organization : String
  dest_organization : String
  orig_account : String
  dest_account : String
  orig_amount : Int
  orig_unit : String
  dest_amount : Int
  dest_unit : String
  reconciled : Bool
deriving DecidableEq, Repr

/-- Case-sensitive substring containment on lists of characters:
`listInfix ns hs = true` iff `ns` occurs contiguously inside `hs`. -/
def listInfix (ns : List Char) : List Char → Bool
  | [] => ns.isEmpty
  | h :: t => ns.isPrefixOf (h :: t) || listInfix ns t

/-- Django's `__contains` lookup: case-sensitive substring match. -/
def strContains (hay needle : String) : Bool :=
  listInfix needle.toList hay.toList

/-- Django's `__icontains` lookup: case-insensitive substring match,
realized by lowercasing both operands character by character. -/
def icontains (hay needle : String) : Bool :=
  listInfix (needle.toList.map Char.toLower) (hay.toList.map Char.toLower)

/-- The `{amount, unit}` dictionary returned by the aggregation
primitives of `saas.models`. -/
structure Totals where
  amount : Int
  unit : String
deriving DecidableEq, Repr

/-- The implementation-defined default unit reported for an empty
aggregation (spec 4.2 leaves it open; fixed here). -/
def defaultUnit : String := "usd"

/-- Modelled from the spec: `sum_dest_amount` from `saas.models` (not
under src/): sums `dest_amount` over the query set into
`{amount: integer, unit: string}`, the unit taken from the rows'
`dest_unit`; an empty query set yields amount 0 with the default unit
(spec 4.2). -/
def sum_dest_amount (qs : List Transaction) : Totals :=
  { amount := (qs.map (fun t => t.dest_amount)).sum,
    unit := ((qs.head?).map (fun t => t.dest_unit)).getD defaultUnit }

/-- Modelled from the spec: `sum_orig_amount` from `saas.models` (not
under src/): sums `orig_amount` over the query set into
`{amount: integer, unit: string}`, the unit taken from the rows'
`orig_unit`; an empty query set yields amount 0 with the default unit
(spec 4.2). -/
def sum_orig_amount (qs : List Transaction) : Totals :=
  { amount := (qs.map (fun t => t.orig_amount)).sum,
    unit := ((qs.head?).map (fun t => t.orig_unit)).getD defaultUnit }

/-- One page of a `PageNumberPagination` listing: Django pages are
1-indexed, each holding `pageSize` rows. -/
def paginate (qs : List Transaction) (pageSize page : Nat) : List Transaction :=
  (qs.drop ((page - 1) * pageSize)).take pageSize

namespace BalancePagination

/-- The balance computed by `BalancePagination.paginate_queryset`
(lines 49-60): with a selector, each side's sum is taken over the rows
whose account on that side `icontains` the selector; without one, over
the whole query set.  Returns `(balance_amount, balance_unit)`. -/
def compute_balance (queryset : List Transaction) (selector : Option String) :
    Int × String :=
  match selector with
  | some sel =>
    let dest_totals := sum_dest_amount (queryset.filter
      (fun t => icontains t.dest_account sel))
    let orig_totals := sum_orig_amount (queryset.filter
      (fun t => icontains t.orig_account sel))
    (dest_totals.amount - orig_totals.amount, dest_totals.unit)
  | none =>
    let dest_totals := sum_dest_amount queryset
    let orig_totals := sum_orig_amount queryset
    (dest_totals.amount - orig_totals.amount, dest_totals.unit)

end BalancePagination

/-- The balance envelope returned by
`BalancePagination.get_paginated_response` (lines 64-73). -/
structure BalanceEnvelope where
  ends_at : Nat
  balance : Int
  unit : String
  count : Nat
  next : Option Nat
  previous : Option Nat
  results : List Transaction
deriving DecidableEq, Repr

namespace BalancePagination

/-- The full paginated response of a balance listing: the balance is
computed over the whole (unpaginated) query set in `paginate_queryset`,
then the envelope carries one page of results (lines 49-73). -/
def response (queryset : List Transaction) (selector : Option String)
    (ends_at pageSize page : Nat) : BalanceEnvelope :=
  let b := compute_balance queryset selector
  { ends_at := ends_at
    balance := b.1
    unit := b.2
    count := queryset.length
    next := if page * pageSize < queryset.length then some (page + 1) else none
    previous := if 1 < page then some (page - 1) else none
    results := paginate queryset pageSize page }

end BalancePagination

/-- One recorded call to `Transaction.objects.get_statement_balance`:
the `organization` argument and the `ends_at` argument, when one is
passed (the call at lines 84-85 passes only the organization). -/
structure StmtCall where
  organization : String
  ends_at_arg : Option Nat
deriving DecidableEq, Repr

namespace StatementBalancePagination

/-- `StatementBalancePagination.paginate_queryset` together with
`get_paginated_response` (lines 82-98): the statement balance is fetched
by the single call `Transaction.objects.get_statement_balance(view.organization)`
(no `ends_at` argument), the request's `ends_at` decorates the envelope.
The Ledger Store's statement-balance rule lives in `saas.models` (not
under src/) and is abstracted as the parameter `get_statement_balance`;
the second component of the result records the calls made to it, each
with the arguments passed at the call site. -/
def response (get_statement_balance : String → Int × String)
    (organization : String) (queryset : List Transaction)
    (ends_at pageSize page : Nat) : BalanceEnvelope × List StmtCall :=
  let b := get_statement_balance organization
  ({ ends_at := ends_at
     balance := b.1
     unit := b.2
     count := queryset.length
     next := if page * pageSize < queryset.length then some (page + 1) else none
     previous := if 1 < page then some (page - 1) else none
     results := paginate queryset pageSize page },
   [{ organization := organization, ends_at_arg := none }])

end StatementBalancePagination

/-- The total envelope returned by
`TotalPagination.get_paginated_response` (lines 109-118). -/
structure TotalEnvelope where
  ends_at : Nat
  total : Int
  unit : String
  count : Nat
  next : Option Nat
  previous : Option Nat
  results : List Transaction
deriving DecidableEq, Repr

/-- `TotalAnnotateMixin.get_queryset` (lines 121-126): annotates the
view with `sum_orig_amount` computed over the whole scoped query set. -/
def total_annotate (queryset : List Transaction) : Totals :=
  sum_orig_amount queryset

namespace TotalPagination

/-- The full paginated response of a total listing (`TotalPagination`,
lines 101-118): `view.totals` was set by `TotalAnnotateMixin` over the
whole (unpaginated) query set, the envelope carries one page. -/
def response (queryset : List Transaction) (ends_at pageSize page : Nat) :
    TotalEnvelope :=
  let totals := total_annotate queryset
  { ends_at := ends_at
    total := totals.amount
    unit := totals.unit
    count := queryset.length
    next := if page * pageSize < queryset.length then some (page + 1) else none
    previous := if 1 < page then some (page - 1) else none
    results := paginate queryset pageSize page }

end TotalPagination

/-- `TransactionQuerysetMixin.get_queryset` (lines 153-161): with a
`selector` request parameter the ledger is filtered to rows whose
destination or origin account `icontains` the selector; otherwise all
transactions are returned.  A request `?selector=` binds the parameter
to the empty string, hence `some ""`, not `none`. -/
def transaction_get_queryset (ledger : List Transaction)
    (selector : Option String) : List Transaction :=
  match selector with
  | some sel => ledger.filter
      (fun t => icontains t.dest_account sel || icontains t.orig_account sel)
  | none => ledger

/-- `ReceivablesQuerysetMixin.get_queryset` (lines 297-301): the
provider's receivables (fetched from `saas.models`, not under src/,
hence taken as the input list) restricted to rows with
`orig_amount > 0`. -/
def receivables_get_queryset (receivables : List Transaction) :
    List Transaction :=
  receivables.filter (fun t => decide (0 < t.orig_amount))

/-- The query set a receivables list request aggregates and pages over:
`ReceivablesQuerysetMixin.get_queryset` further narrowed by the
date-range and search filters layered above it (`TransactionFilterMixin`),
abstracted as the predicate `scope`.  `TotalAnnotateMixin` computes
`sum_orig_amount` over exactly this set. -/
def receivables_scoped (receivables : List Transaction)
    (scope : Transaction → Bool) : List Transaction :=
  (receivables_get_queryset receivables).filter scope

/-- Python truthiness of `self.request.GET.get('force', False)`
(line 381): an absent parameter gives the default `False`; a bound
parameter is a string, truthy exactly when non-empty (`bool("")` is
`False`, `bool("false")` and `bool("0")` are `True`). -/
def pyTruthyParam : Option String → Bool
  | none => false
  | some s => !s.isEmpty

/-- The `reconcile` value computed at line 381:
`reconcile = not bool(self.request.GET.get('force', False))`. -/
def reconcile_flag (forceParam : Option String) : Bool :=
  !pyTruthyParam forceParam

namespace Organization

/-- Modelled from the spec: `Organization.get_transfers(reconcile)` from
`saas.models` (not under src/): "When reconciling, only settled/cleared
transfer transactions for the organization-as-provider are included;
when `force` is set, all transfers including pending/unreconciled ones
are included" (spec 4.4).  Transfers of the organization-as-provider
are the ledger rows whose destination organization is the provider. -/
def get_transfers (ledger : List Transaction) (organization : String)
    (reconcile : Bool) : List Transaction :=
  let transfers := ledger.filter (fun t => t.dest_organization == organization)
  if reconcile then transfers.filter (fun t => t.reconciled) else transfers

end Organization

/-- `TransferQuerysetMixin.get_queryset` (lines 377-382): computes
`reconcile` from the raw `force` parameter and fetches
`self.organization.get_transfers(reconcile=reconcile)`. -/
def transfer_get_queryset (ledger : List Transaction) (organization : String)
    (forceParam : Option String) : List Transaction :=
  Organization.get_transfers ledger organization (reconcile_flag forceParam)

/-- The outcome of an API request as seen by the client: a successful
value, or a DRF `ValidationError` (a client-facing 400 response whose
detail carries a message). -/
inductive ApiResult (α : Type) where
  | ok (value : α)
  | validationError (detail : String)
deriving DecidableEq, Repr

/-- The HTTP status of an `ApiResult`: DRF maps `ValidationError` to
`400 Bad Request`. -/
def ApiResult.status {α : Type} : ApiResult α → Nat
  | .ok _ => 200
  | .validationError _ => 400

/-- The detail message built at lines 448-450 around the processor
error's message. -/
def processor_error_detail (err : String) : String :=
  "The latest transfers might not be shown because there was an error" ++
    " with the backend processor (ie. " ++ err ++ ")."

/-- `TransferListAPIView.list` (lines 443-450): the underlying listing
(which may raise `ProcessorError`, carried here as `Except.error` with
the error's message) is returned as is on success; a `ProcessorError`
is caught and re-raised as a `ValidationError` whose detail embeds the
processor error's message. -/
def transfer_list (base : Except String BalanceEnvelope) :
    ApiResult BalanceEnvelope :=
  match base with
  | .ok envelope => .ok envelope
  | .error err => .validationError (processor_error_detail err)

/-- An HTTP response with a status code and an optional body. -/
structure HttpResponse (α : Type) where
  status : Nat
  body : Option α
deriving DecidableEq, Repr

/-- `CancelStatementBalanceAPIView.destroy` (lines 498-500): calls
`self.organization.create_cancel_transactions(user=request.user)` —
the Ledger Store operation from `saas.models` (not under src/) that
records the offsetting cancel transactions for the acting user,
abstracted as the parameter `create_cancel_transactions` — and returns
`Response(status=HTTP_204_NO_CONTENT)`, which has no body.  The first
component is the list of transactions recorded by the call. -/
def cancel_statement_balance_destroy
    (create_cancel_transactions : String → List Transaction)
    (user : String) : List Transaction × HttpResponse (List Transaction) :=
  (create_cancel_transactions user, { status := 204, body := none })

/-! ### Fixtures and helper lemmas -/

/-- Fixture: a transfer A→B of 7 usd (spec 8, selector-filtering test). -/
def txAB : Transaction :=
  { created_at := 1, descr := "A to B", orig_organization := "alice",
    dest_organization := "bob", orig_account := "A", dest_account := "B",
    orig_amount := 7, orig_unit := "usd", dest_amount := 7,
    dest_unit := "usd", reconciled := true }

/-- Fixture: a transfer B→A of 10 usd (spec 8, selector-filtering test). -/
def txBA : Transaction :=
  { created_at := 2, descr := "B to A", orig_organization := "bob",
    dest_organization := "alice", orig_account := "B", dest_account := "A",
    orig_amount := 10, orig_unit := "usd", dest_amount := 10,
    dest_unit := "usd", reconciled := true }

/-- Fixture: an unreconciled (pending) transfer towards provider
`cowork` (spec 8, reconciliation test). -/
def txUnreconciled : Transaction :=
  { created_at := 3, descr := "pending distribution",
    orig_organization := "stripe", dest_organization := "cowork",
    orig_account := "Funds", dest_account := "Funds",
    orig_amount := 112120, orig_unit := "usd", dest_amount := 112120,
    dest_unit := "usd", reconciled := false }

theorem isPrefixOf_self_append (ns bs : List Char) :
    ns.isPrefixOf (ns ++ bs) = true := by
  induction ns with
  | nil => simp [List.isPrefixOf]
  | cons n ns' ih => simp [List.isPrefixOf, ih]

theorem listInfix_nil (l : List Char) : listInfix [] l = true := by
  induction l with
  | nil => rfl
  | cons h t ih => simp [listInfix]

theorem listInfix_append (ns as bs : List Char) :
    listInfix ns (as ++ ns ++ bs) = true := by
  induction as with
  | nil =>
    cases hns : ns with
    | nil => simpa using listInfix_nil bs
    | cons n ns' =>
      have h := isPrefixOf_self_append (n :: ns') bs
      simp only [List.nil_append, List.cons_append] at h ⊢
      simp only [listInfix, List.append_eq, h, Bool.true_or]
  | cons a as' ih =>
    simp only [List.cons_append, listInfix, List.append_eq, ih, Bool.or_true]

/-- The empty needle is contained in every haystack: Django's
`icontains ""` filter is vacuous. -/
theorem icontains_empty (hay : String) : icontains hay "" = true := by
  have h : ("" : String).toList = [] := rfl
  simp [icontains, h, listInfix_nil]

theorem string_toList_append (a b : String) :
    (a ++ b).toList = a.toList ++ b.toList := by
  simp [String.toList]

/-- The alternative computation that C2 rules out, following the spec's
words for the rejected reading: both sums taken over the rows whose two
accounts *jointly* match the selector. -/
def balance_joint (queryset : List Transaction) (sel : String) : Int :=
  let joint := queryset.filter
    (fun t => icontains t.dest_account sel && icontains t.orig_account sel)
  (sum_dest_amount joint).amount - (sum_orig_amount joint).amount

/-! ### Claim theorems -/

/-- C1: for every query set with no account selector, the balance
attached to the balance envelope equals `sum_dest_amount(qs).amount`
minus `sum_orig_amount(qs).amount`, and the envelope's unit is the unit
of the destination sum. -/
theorem balance_envelope_no_selector (qs : List Transaction)
    (e ps pg : Nat) :
    (BalancePagination.response qs none e ps pg).balance
      = (sum_dest_amount qs).amount - (sum_orig_amount qs).amount ∧
    (BalancePagination.response qs none e ps pg).unit
      = (sum_dest_amount qs).unit :=
  ⟨rfl, rfl⟩

/-- C2: with a selector present, the balance is computed with the two
sides filtered independently — the destination sum over the rows whose
`dest_account` contains the selector (case-insensitively), the origin
sum over the rows whose `orig_account` contains it — and this differs
from filtering the rows jointly on both sides, as the A→B / B→A
fixture with selector "a" shows. -/
theorem balance_sides_filtered_independently :
    (∀ (qs : List Transaction) (sel : String),
      (BalancePagination.compute_balance qs (some sel)).1
        = (sum_dest_amount (qs.filter
            (fun t => icontains t.dest_account sel))).amount
          - (sum_orig_amount (qs.filter
            (fun t => icontains t.orig_account sel))).amount) ∧
    (BalancePagination.compute_balance [txAB, txBA] (some "a")).1
      ≠ balance_joint [txAB, txBA] "a" :=
  ⟨fun _ _ => rfl, by decide⟩

/-- C3: the aggregate placed in the response envelope (the balance of a
balance listing, the total of a total listing) is computed once over the
full unpaginated query set, so it is identical for any two requested
page sizes and page indices. -/
theorem aggregate_page_invariant (qs : List Transaction)
    (sel : Option String) (e ps₁ pg₁ ps₂ pg₂ : Nat) :
    (BalancePagination.response qs sel e ps₁ pg₁).balance
      = (BalancePagination.response qs sel e ps₂ pg₂).balance ∧
    (BalancePagination.response qs sel e ps₁ pg₁).balance
      = (BalancePagination.compute_balance qs sel).1 ∧
    (TotalPagination.response qs e ps₁ pg₁).total
      = (TotalPagination.response qs e ps₂ pg₂).total ∧
    (TotalPagination.response qs e ps₁ pg₁).total
      = (sum_orig_amount qs).amount :=
  ⟨rfl, rfl, rfl, rfl⟩

/-- C4 counterexample: at a concrete request (organization "cowork",
request `ends_at` 5), the single statement-balance call does not carry
the request's `ends_at` as an argument: the recorded call is
`⟨"cowork", none⟩`, not `⟨"cowork", some 5⟩` as the claim requires. -/
theorem statement_balance_call_no_ends_at :
    ¬ ((StatementBalancePagination.response (fun _ => (1200, "usd"))
          "cowork" [] 5 10 1).2
        = [{ organization := "cowork", ends_at_arg := some 5 }]) := by
  decide

/-- C4 (amended): every statement-balance list request makes exactly one
call to the Ledger Store's statement-balance rule, passing only the
organization and no `ends_at` argument; the request's `ends_at` is
attached to the envelope (and the envelope's balance and unit are the
pair that call returned). -/
theorem statement_balance_single_call (f : String → Int × String)
    (org : String) (qs : List Transaction) (e ps pg : Nat) :
    (StatementBalancePagination.response f org qs e ps pg).2
      = [{ organization := org, ends_at_arg := none }] ∧
    (StatementBalancePagination.response f org qs e ps pg).2.length = 1 ∧
    (StatementBalancePagination.response f org qs e ps pg).1.ends_at = e ∧
    (StatementBalancePagination.response f org qs e ps pg).1.balance
      = (f org).1 ∧
    (StatementBalancePagination.response f org qs e ps pg).1.unit
      = (f org).2 :=
  ⟨rfl, rfl, rfl, rfl, rfl⟩

/-- C5: the transfer query set is fetched with `reconcile` equal to the
negation of the force flag; with force falsy (in particular, the
parameter absent) an unreconciled provider transfer is excluded, and
with force truthy all provider transfers are returned. -/
theorem transfers_reconcile_negation (ledger : List Transaction)
    (org : String) (p : Option String) :
    transfer_get_queryset ledger org p
      = Organization.get_transfers ledger org (!pyTruthyParam p) ∧
    (pyTruthyParam p = false → ∀ t, t ∈ ledger → t.dest_organization = org →
      t.reconciled = false → t ∉ transfer_get_queryset ledger org p) ∧
    (pyTruthyParam p = true → transfer_get_queryset ledger org p
      = ledger.filter (fun t => t.dest_organization == org)) := by
  refine ⟨rfl, ?_, ?_⟩
  · intro hp t _ _ hrec hmem
    simp only [transfer_get_queryset, Organization.get_transfers,
      reconcile_flag, hp, Bool.not_false, if_true, List.mem_filter] at hmem
    rw [hrec] at hmem
    exact Bool.false_ne_true hmem.2
  · intro hp
    simp [transfer_get_queryset, Organization.get_transfers,
      reconcile_flag, hp]

/-- C5 witness: with the force parameter absent the pending fixture
transfer towards provider "cowork" is excluded; with `force=1` it is
returned. -/
theorem transfers_reconcile_negation_witness :
    txUnreconciled ∉ transfer_get_queryset [txUnreconciled] "cowork" none ∧
    transfer_get_queryset [txUnreconciled] "cowork" (some "1")
      = [txUnreconciled] := by
  constructor
  · exact (transfers_reconcile_negation [txUnreconciled] "cowork" none).2.1
      rfl txUnreconciled (by simp) rfl rfl
  · rw [(transfers_reconcile_negation [txUnreconciled] "cowork"
      (some "1")).2.2 (by decide)]
    decide

/-- C6: the `force` parameter is coerced with Python truthiness, not
parsed as a boolean: `reconcile` is true exactly when the parameter is
absent or bound to the empty string, and any non-empty string value —
"false" and "0" included — makes the transfers be fetched with
`reconcile = false`. -/
theorem force_param_truthiness :
    reconcile_flag none = true ∧
    reconcile_flag (some "") = true ∧
    (∀ s : String, s.isEmpty = false → reconcile_flag (some s) = false) ∧
    (∀ (ledger : List Transaction) (org : String) (s : String),
      s.isEmpty = false → transfer_get_queryset ledger org (some s)
        = Organization.get_transfers ledger org false) := by
  refine ⟨rfl, by decide, ?_, ?_⟩
  · intro s hs
    simp [reconcile_flag, pyTruthyParam, hs]
  · intro ledger org s hs
    simp [transfer_get_queryset, reconcile_flag, pyTruthyParam, hs]

/-- C6 witness: the strings "false" and "0" are truthy, so both make
`reconcile` false and fetch unreconciled transfers too. -/
theorem force_param_truthiness_witness :
    reconcile_flag (some "false") = false ∧
    reconcile_flag (some "0") = false ∧
    transfer_get_queryset [txUnreconciled] "cowork" (some "false")
      = Organization.get_transfers [txUnreconciled] "cowork" false :=
  ⟨force_param_truthiness.2.2.1 "false" (by decide),
   force_param_truthiness.2.2.1 "0" (by decide),
   force_param_truthiness.2.2.2 [txUnreconciled] "cowork" "false"
     (by decide)⟩

/-- C7: a `ProcessorError` raised while listing transfers is answered
with a `ValidationError` — an HTTP 4xx client error, never a 5xx — whose
detail message embeds the backend error's message. -/
theorem processor_error_translated (err : String) :
    transfer_list (Except.error err)
      = ApiResult.validationError (processor_error_detail err) ∧
    400 ≤ (transfer_list (Except.error err)).status ∧
    (transfer_list (Except.error err)).status < 500 ∧
    strContains (processor_error_detail err) err = true := by
  refine ⟨rfl, Nat.le.refl, (by decide : (400 : Nat) < 500), ?_⟩
  show listInfix err.toList (processor_error_detail err).toList = true
  rw [processor_error_detail, string_toList_append, string_toList_append]
  exact listInfix_append err.toList _ _

/-- C8: for every receivables query set (the provider's receivables
restricted to `orig_amount > 0`, further narrowed by any date/search
scope), the envelope's total is `sum_orig_amount` over exactly that set,
and every transaction in the set has `orig_amount` strictly positive. -/
theorem receivables_total_positive (recv : List Transaction)
    (scope : Transaction → Bool) (e ps pg : Nat) :
    total_annotate (receivables_scoped recv scope)
      = sum_orig_amount (receivables_scoped recv scope) ∧
    (TotalPagination.response (receivables_scoped recv scope) e ps pg).total
      = (sum_orig_amount (receivables_scoped recv scope)).amount ∧
    (∀ t, t ∈ receivables_scoped recv scope → 0 < t.orig_amount) := by
  refine ⟨rfl, rfl, ?_⟩
  intro t ht
  have h1 : t ∈ receivables_get_queryset recv :=
    List.mem_of_mem_filter ht
  have h2 := List.of_mem_filter h1
  exact of_decide_eq_true h2

/-- C8 witness: the A→B fixture (orig_amount 7) survives the
receivables scoping and is indeed strictly positive. -/
theorem receivables_total_positive_witness : 0 < txAB.orig_amount :=
  (receivables_total_positive [txAB] (fun _ => true) 0 10 1).2.2 txAB
    (by decide)

/-- C9: a successful balance-cancellation records exactly the
offsetting transactions the Ledger Store creates for the requesting
user and responds 204 No Content with no body. -/
theorem cancel_balance_destroy_response
    (create_cancel_transactions : String → List Transaction)
    (user : String) :
    (cancel_statement_balance_destroy create_cancel_transactions
      user).2.status = 204 ∧
    (cancel_statement_balance_destroy create_cancel_transactions
      user).2.body = none ∧
    (cancel_statement_balance_destroy create_cancel_transactions
      user).1 = create_cancel_transactions user :=
  ⟨rfl, rfl, rfl⟩

/-- C10: a request whose selector parameter is bound to the empty
string takes the selector-present path yet yields the same query set
and the same balance envelope as one with the parameter absent: the
empty-needle containment is vacuously true on both account sides. -/
theorem empty_selector_equals_absent (qs : List Transaction)
    (e ps pg : Nat) :
    transaction_get_queryset qs (some "")
      = transaction_get_queryset qs none ∧
    BalancePagination.response qs (some "") e ps pg
      = BalancePagination.response qs none e ps pg := by
  have hd : qs.filter (fun t => icontains t.dest_account "") = qs :=
    List.filter_eq_self.mpr (fun a _ => icontains_empty a.dest_account)
  have ho : qs.filter (fun t => icontains t.orig_account "") = qs :=
    List.filter_eq_self.mpr (fun a _ => icontains_empty a.orig_account)
  have hcb : BalancePagination.compute_balance qs (some "")
      = BalancePagination.compute_balance qs none := by
    simp [BalancePagination.compute_balance, hd, ho]
  constructor
  · have hq : qs.filter (fun t => icontains t.dest_account ""
        || icontains t.orig_account "") = qs :=
      List.filter_eq_self.mpr
        (fun a _ => by simp [icontains_empty a.dest_account])
    simpa [transaction_get_queryset] using hq
  · simp [BalancePagination.response, hcb]

end Saas
